import Mathlib

/-!
Verification of the bot-website-api gateway (`main.py`, `auth.py`).

The development shallowly embeds the request-shaping logic of the service:
JSON/Python values (`PyVal`), payload dictionaries as association lists,
the column allow-list filter (`_filter_payload`), the Supabase forwarder
(`supabase_request`) with its response normalization, the token authority
(`create_jwt_token` / `verify_jwt_token` in both the PyJWT and the base64
fallback strategy), and the authorization gate (`is_admin_or_hicom`).
Network effects are made explicit: each handler returns, next to its
result, the list of upstream calls it issues, and the outcome of every
outbound HTTP request is a parameter of the embedding.
-/

/-- A Python/JSON value as it appears in request payloads and upstream
response bodies: strings, ints, booleans, `None`, lists and
string-keyed dicts (dicts are association lists in insertion order). -/
inductive PyVal where
  | str (s : String)
  | int (n : Int)
  | bool (b : Bool)
  | none_
  | list (xs : List PyVal)
  | dict (d : List (String × PyVal))

/-- A Python dict with string keys, in insertion order. -/
abbrev Dict := List (String × PyVal)

/-- Python `d.get(k)` / `d[k]`: the value at the first occurrence of key
`k`, if any (a real Python dict has unique keys). -/
def dictGet (k : String) : Dict → Option PyVal
  | [] => none
  | (k2, v) :: rest => if k2 = k then some v else dictGet k rest

/-- Python dict update `d[k] = v` (also the effect of `k` in a
`{**d, k: v}` merge): replace the value at the existing key in place
(a Python dict has at most one occurrence), otherwise append the new
binding at the end. -/
def dictSet (d : Dict) (k : String) (v : PyVal) : Dict :=
  match d with
  | [] => [(k, v)]
  | (k2, v2) :: rest => if k2 = k then (k, v) :: rest else (k2, v2) :: dictSet rest k v

/-- Python `k in d` for a dict `d`. -/
def hasKey (d : Dict) (k : String) : Bool :=
  d.any (fun kv => kv.1 = k)

/-- `_filter_payload(data, allowed_keys)` from `main.py`:
`{k: v for k, v in data.items() if k in allowed_keys}`. -/
def filterPayload (data : Dict) (allowed : List String) : Dict :=
  data.filter (fun kv => decide (kv.1 ∈ allowed))

/-- Python truthiness of a value (`bool(v)`). -/
def pyTruthy : PyVal → Bool
  | .str s => !s.isEmpty
  | .int n => n != 0
  | .bool b => b
  | .none_ => false
  | .list xs => !xs.isEmpty
  | .dict d => !d.isEmpty

/-- Python `len(v)`; `none` models the `TypeError` raised on values
without a length. -/
def pyLen : PyVal → Option Nat
  | .str s => some s.length
  | .list xs => some xs.length
  | .dict d => some d.length
  | _ => none

/-- Python `v[0]`; `none` models the exception raised when the subscript
fails (`KeyError` on a string-keyed dict, `IndexError` on an empty
sequence, `TypeError` otherwise). -/
def pySubscript0 : PyVal → Option PyVal
  | .list xs => xs.head?
  | .str s => if s.isEmpty then none else some (.str (s.take 1))
  | _ => none

/-- Python `d.get(k)` truthiness test, as in
`if not payload.get("section_title")`. -/
def pyGetTruthy (d : Dict) (k : String) : Bool :=
  match dictGet k d with
  | some v => pyTruthy v
  | none => false

-- ===== Allow-lists (`main.py`, module-level constants) =====

/-- `HR_COLUMNS` from `main.py`. -/
def HR_COLUMNS : List String :=
  ["user_id", "username", "tryouts", "events", "phases", "courses",
   "inspections", "joint_events", "division", "rank"]

/-- `LR_COLUMNS` from `main.py`. -/
def LR_COLUMNS : List String :=
  ["user_id", "username", "activity", "time_guarded", "events_attended",
   "division", "rank"]

/-- `USER_COLUMNS` from `main.py`. -/
def USER_COLUMNS : List String :=
  ["user_id", "username", "xp"]

/-- `HIERARCHY_SECTION_COLUMNS` from `main.py`. -/
def HIERARCHY_SECTION_COLUMNS : List String :=
  ["section_title", "section_type", "accent_color", "display_order", "is_active"]

/-- `HIERARCHY_ENTRY_COLUMNS` from `main.py`. -/
def HIERARCHY_ENTRY_COLUMNS : List String :=
  ["section_id", "rank", "username", "army_rank", "roblox_id",
   "requirements", "display_order"]

/-- `HIERARCHY_HEADER_COLUMNS` from `main.py`. -/
def HIERARCHY_HEADER_COLUMNS : List String :=
  ["section_id", "header_text", "display_order"]

-- ===== Basic lemmas about the payload filter and dict operations =====

theorem filterPayload_keys (P : Dict) (A : List String) :
    (filterPayload P A).map Prod.fst
      = (P.map Prod.fst).filter (fun k => decide (k ∈ A)) := by
  induction P with
  | nil => rfl
  | cons kv rest ih =>
    simp only [filterPayload, List.filter, List.map] at *
    by_cases h : kv.1 ∈ A <;> simp [h, ih]

theorem dictGet_filterPayload_mem (P : Dict) (A : List String) (k : String)
    (hk : k ∈ A) :
    dictGet k (filterPayload P A) = dictGet k P := by
  induction P with
  | nil => rfl
  | cons kv rest ih =>
    obtain ⟨k2, v⟩ := kv
    simp only [filterPayload, List.filter] at *
    by_cases he : k2 = k
    · subst he
      simp [hk, dictGet]
    · by_cases h2 : k2 ∈ A <;> simp [dictGet, he, h2, ih]

theorem dictGet_filterPayload_not_mem (P : Dict) (A : List String) (k : String)
    (hk : k ∉ A) :
    dictGet k (filterPayload P A) = none := by
  induction P with
  | nil => rfl
  | cons kv rest ih =>
    obtain ⟨k2, v⟩ := kv
    simp only [filterPayload, List.filter] at *
    by_cases he : k2 = k
    · subst he
      simp [hk, ih]
    · by_cases h2 : k2 ∈ A <;> simp [dictGet, he, h2, ih]

theorem filterPayload_idem (P : Dict) (A : List String) :
    filterPayload (filterPayload P A) A = filterPayload P A := by
  induction P with
  | nil => rfl
  | cons kv rest ih =>
    simp only [filterPayload, List.filter] at *
    by_cases h : kv.1 ∈ A <;> simp [h, ih]

theorem filterPayload_key_allowed (P : Dict) (A : List String) :
    ∀ kv ∈ filterPayload P A, kv.1 ∈ A := by
  intro kv hkv
  have := List.of_mem_filter hkv
  exact of_decide_eq_true this

-- ===== Token Authority (`main.py`, create_jwt_token / verify_jwt_token) =====

/-- `ADMIN_DISCORD_ID` from `main.py` (hard-coded constant). -/
def ADMIN_DISCORD_ID : String := "353167234698444802"

mutual

/-- Canonical serialization of a `PyVal`, used to model the byte string
over which the HMAC signature of a JWT is computed. -/
def pyValRepr : PyVal → String
  | .str s => "s:" ++ s
  | .int n => "i:" ++ toString n
  | .bool b => "b:" ++ toString b
  | .none_ => "null"
  | .list xs => "[" ++ pyListRepr xs ++ "]"
  | .dict d => "<" ++ pyDictRepr d ++ ">"

/-- Serialization of a list of values (see `pyValRepr`). -/
def pyListRepr : List PyVal → String
  | [] => ""
  | x :: xs => pyValRepr x ++ "," ++ pyListRepr xs

/-- Serialization of a dict (see `pyValRepr`). -/
def pyDictRepr : List (String × PyVal) → String
  | [] => ""
  | (k, v) :: rest => k ++ "=" ++ pyValRepr v ++ ";" ++ pyDictRepr rest

end

/-- Stand-in for the HS256 signature `jwt.encode` attaches to a payload:
a deterministic digest of the secret key and the serialized payload.
The roundtrip facts proved below depend only on the signature being a
function of `(secret, payload)` that `verify` recomputes and compares. -/
def hmacSig (secret : String) (payload : Dict) : UInt64 :=
  (secret ++ "|" ++ pyDictRepr payload).hash

/-- A token as issued by either strategy of `create_jwt_token`:
a payload signed with HS256 (PyJWT strategy) or a bare
base64-of-JSON payload (fallback strategy, no integrity protection).
Decoding of the wire string is modelled by the constructor tag: a
fallback decoder applied to a JWT string (or vice versa) fails. -/
inductive Token where
  | signed (payload : Dict) (sig : UInt64)
  | plain (payload : Dict)

/-- Payload built by both strategies of `create_jwt_token`:
`{**user_data, "exp": time.time() + 3600, "iat": time.time()}`. -/
def tokenPayload (user_data : Dict) (now : Nat) : Dict :=
  dictSet (dictSet user_data "exp" (.int ((now : Int) + 3600))) "iat" (.int (now : Int))

/-- `create_jwt_token` (PyJWT strategy, `main.py` lines 152-159):
signs the payload with the secret key. `now` is `time.time()`. -/
def create_jwt_token_jwt (secret : String) (now : Nat) (user_data : Dict) : Token :=
  let payload := tokenPayload user_data now
  .signed payload (hmacSig secret payload)

/-- `verify_jwt_token` (PyJWT strategy, `main.py` lines 161-167):
`jwt.decode` checks the signature and the `exp` claim; PyJWT treats the
token as expired when `exp <= now`. Any failure is caught and mapped
to `None`. A non-JWT string fails to decode. -/
def verify_jwt_token_jwt (secret : String) (now : Nat) : Token → Option Dict
  | .signed payload sig =>
    if sig = hmacSig secret payload then
      match dictGet "exp" payload with
      | some (.int e) => if e ≤ (now : Int) then none else some payload
      | some _ => none
      | none => some payload
    else none
  | .plain _ => none

/-- `create_jwt_token` (fallback strategy, `main.py` lines 176-184):
base64-encodes the JSON payload, no signature. -/
def create_jwt_token_fallback (now : Nat) (user_data : Dict) : Token :=
  .plain (tokenPayload user_data now)

/-- `verify_jwt_token` (fallback strategy, `main.py` lines 186-195):
decodes and accepts iff `payload.get("exp", 0) > time.time()`; any
exception (bad decode, non-numeric `exp`) yields `None`. A JWT-format
string is not valid base64-of-JSON and fails to decode. -/
def verify_jwt_token_fallback (now : Nat) : Token → Option Dict
  | .plain payload =>
    match dictGet "exp" payload with
    | some (.int e) => if e > (now : Int) then some payload else none
    | some _ => none
    | none => if (0 : Int) > (now : Int) then some payload else none
  | .signed _ _ => none

/-- `create_jwt_token`, with the import-time strategy choice
(`pyjwtAvailable` = PyJWT import succeeded) made explicit. -/
def create_jwt_token (pyjwtAvailable : Bool) (secret : String) (now : Nat)
    (user_data : Dict) : Token :=
  if pyjwtAvailable then create_jwt_token_jwt secret now user_data
  else create_jwt_token_fallback now user_data

/-- `verify_jwt_token`, with the import-time strategy choice made
explicit. -/
def verify_jwt_token (pyjwtAvailable : Bool) (secret : String) (now : Nat)
    (t : Token) : Option Dict :=
  if pyjwtAvailable then verify_jwt_token_jwt secret now t
  else verify_jwt_token_fallback now t

-- ===== Authorization Gate (`main.py`, get_current_user / is_admin_or_hicom) =====

/-- An HTTP error as raised by `fastapi.HTTPException(status_code, detail)`. -/
structure HTTPError where
  status : Nat
  detail : String
deriving DecidableEq

/-- Outcome of the live Discord guild-member lookup performed by
`is_admin_or_hicom`: a network/transport failure (the `requests.get`
call raised), or a response with its status code and, when the body
parsed as JSON, the value of `member_data.get("roles", [])` as a list
of role-id strings (`none` models a body that failed to parse, which
raises inside the `try` block). -/
inductive RoleLookup where
  | networkError
  | resp (status : Nat) (roles : Option (List String))

/-- The check `user.get("discord_id") == ADMIN_DISCORD_ID` from
`is_admin_or_hicom`: Python equality of a payload value with the
admin-id string constant. -/
def isAdminUser (user : Dict) : Bool :=
  match dictGet "discord_id" user with
  | some (.str s) => s = ADMIN_DISCORD_ID
  | _ => false

/-- The 403 raised at the end of `is_admin_or_hicom`. -/
def accessDenied : HTTPError :=
  ⟨403, "Access denied. Requires HICOM role or admin privileges."⟩

/-- `is_admin_or_hicom` (`main.py` lines 205-233), given the already
decoded user payload. The returned flag records whether the Discord
role lookup was performed. The admin short-circuit returns before any
lookup; otherwise the lookup runs, a 200 response grants access iff
`HICOM_ROLE_ID and HICOM_ROLE_ID in roles` is truthy, and every other
outcome (non-200 status, parse failure, network error) falls through
to the 403. -/
def is_admin_or_hicom (hicomRoleId : String) (user : Dict)
    (lookup : RoleLookup) : Except HTTPError Dict × Bool :=
  if isAdminUser user then (.ok user, false)
  else
    match lookup with
    | .networkError => (.error accessDenied, true)
    | .resp status roles? =>
      if status = 200 then
        match roles? with
        | some roles =>
          if hicomRoleId ≠ "" ∧ hicomRoleId ∈ roles then (.ok user, true)
          else (.error accessDenied, true)
        | none => (.error accessDenied, true)
      else (.error accessDenied, true)

/-- The bearer credential of an inbound request, as seen by the
`HTTPBearer` security dependency. -/
inductive Credential where
  | noCredential
  | bearer (t : Token)

/-- Modelled from the spec: the extraction of the bearer credential is
done by FastAPI's `HTTPBearer` class (`security`, `main.py` line 58),
whose code is not part of this repository. Per the spec's Authorization
Gate, a request that supplies no credential is rejected as
`AuthMissing` (401) before any handler code runs. -/
def extractBearer : Credential → Except HTTPError Token
  | .noCredential => .error ⟨401, "Not authenticated"⟩
  | .bearer t => .ok t

/-- `get_current_user` (`main.py` lines 197-203): verify the bearer
token; reject with 401 when verification fails. -/
def get_current_user (pyjwtAvailable : Bool) (secret : String) (now : Nat)
    (t : Token) : Except HTTPError Dict :=
  match verify_jwt_token pyjwtAvailable secret now t with
  | some user => .ok user
  | none => .error ⟨401, "Invalid or expired token"⟩

/-- The full token-plus-role authorization chain guarding the protected
endpoints: `HTTPBearer` → `get_current_user` → `is_admin_or_hicom`.
The flag records whether the Discord role lookup was performed. -/
def auth_gate (pyjwtAvailable : Bool) (secret hicomRoleId : String) (now : Nat)
    (cred : Credential) (lookup : RoleLookup) : Except HTTPError Dict × Bool :=
  match extractBearer cred with
  | .error e => (.error e, false)
  | .ok t =>
    match get_current_user pyjwtAvailable secret now t with
    | .error e => (.error e, false)
    | .ok user => is_admin_or_hicom hicomRoleId user lookup

-- ===== Upstream Forwarder (`main.py`, supabase_request) =====

/-- The arguments of one `supabase_request` invocation: HTTP method,
table, optional JSON body, query params, optional record selector. -/
structure UpstreamCall where
  method : String
  table : String
  data : Option Dict
  params : List (String × String)
  recordId : Option String

/-- URL construction of `supabase_request` (`main.py` lines 69-79): the
table endpoint, plus `?id=eq.<record_id>` when a record is targeted —
the code branches on `method == "DELETE"` but both branches append the
same `id` equality filter. -/
def supabase_request_url (supabaseUrl : String) (c : UpstreamCall) : String :=
  let url := supabaseUrl ++ "/rest/v1/" ++ c.table
  match c.recordId with
  | none => url
  | some rid =>
    if c.method = "DELETE" then url ++ "?id=eq." ++ rid
    else url ++ "?id=eq." ++ rid

/-- Outcome of one outbound HTTP request: a network/transport failure
(the `requests` call raised, with the exception text), or a response
with status code, body text, and the JSON parse of the body (`none`
when `response.json()` would raise). -/
inductive UpstreamOutcome where
  | networkError (msg : String)
  | resp (status : Nat) (text : String) (parsed : Option PyVal)

/-- The `{"success": True, "message": m}` dict literal used by
`supabase_request` to normalize empty-body successes. -/
def successMsg (m : String) : PyVal :=
  .dict [("success", .bool true), ("message", .str m)]

/-- The best-effort "fetch the just-created record" recovery inside
`supabase_request` for a POST that returned an empty body (`main.py`
lines 108-121): fetch the latest row; if the fetch returns 200 with a
non-empty body that parses to a truthy value of positive length, return
its first element; on any other outcome — network error, non-200
status, empty body, parse failure, falsy result, or a failing
subscript, all caught by the inner `except` — fall back to the generic
success acknowledgment. -/
def emptyBodyPostResult (fetch : UpstreamOutcome) : PyVal :=
  let generic := successMsg "Record created successfully"
  match fetch with
  | .networkError _ => generic
  | .resp status text parsed =>
    if status = 200 ∧ text.trim ≠ "" then
      match parsed with
      | none => generic
      | some result =>
        if pyTruthy result then
          match pyLen result with
          | none => generic
          | some n =>
            if n > 0 then
              match pySubscript0 result with
              | some v => v
              | none => generic
            else generic
        else generic
    else generic

/-- `supabase_request` (`main.py` lines 69-140), as a pure function of
the upstream outcome. `pyjwtAvailable` records which import-time branch
ran: when PyJWT imported successfully the module-level name `json` is
never bound, so the `except json.JSONDecodeError` clause itself raises
`NameError` on a non-JSON body, which the outer handler turns into a
500. A network/transport failure is normalized to a 500 whose detail
wraps the exception text. -/
def supabase_request (c : UpstreamCall) (pyjwtAvailable : Bool)
    (outcome fetch : UpstreamOutcome) : Except HTTPError PyVal :=
  match outcome with
  | .networkError msg => .error ⟨500, "Database request failed: " ++ msg⟩
  | .resp status text parsed =>
    if status ≥ 400 then .error ⟨status, "Supabase error: " ++ text⟩
    else if status = 204 ∨ text.trim = "" then
      if c.method = "DELETE" then .ok (successMsg "Record deleted successfully")
      else if c.method = "POST" then .ok (emptyBodyPostResult fetch)
      else if c.method = "PATCH" then .ok (successMsg "Record updated successfully")
      else .ok (.dict [("success", .bool true)])
    else
      match parsed with
      | some v => .ok v
      | none =>
        if pyjwtAvailable then
          .error ⟨500, "Database request failed: NameError"⟩
        else if text ≠ "" then
          .ok (.dict [("message", .str text), ("success", .bool true)])
        else .ok (.dict [("success", .bool true)])

-- ===== Route Handlers (`main.py`) =====

/-- Result of a handler body: the response (or raised `HTTPException`)
together with the list of upstream database calls it issued. -/
abbrev HandlerResult := Except HTTPError PyVal × List UpstreamCall

/-- Run one `supabase_request` and record the call. -/
def runUpstream (c : UpstreamCall) (pyjwtAvailable : Bool)
    (outcome fetch : UpstreamOutcome) : HandlerResult :=
  (supabase_request c pyjwtAvailable outcome fetch, [c])

/-- `create_hr` (`POST /hr`): requires `username` and `user_id` keys,
filters by `HR_COLUMNS`, forwards as POST to table `HRs`. -/
def create_hr (data : Dict) (pyjwtAvailable : Bool)
    (outcome fetch : UpstreamOutcome) : HandlerResult :=
  if ¬hasKey data "username" ∨ ¬hasKey data "user_id" then
    (.error ⟨400, "Missing required field: user_id or username"⟩, [])
  else
    runUpstream ⟨"POST", "HRs", some (filterPayload data HR_COLUMNS), [], none⟩
      pyjwtAvailable outcome fetch

/-- `create_lr` (`POST /lr`). -/
def create_lr (data : Dict) (pyjwtAvailable : Bool)
    (outcome fetch : UpstreamOutcome) : HandlerResult :=
  if ¬hasKey data "username" ∨ ¬hasKey data "user_id" then
    (.error ⟨400, "Missing required field: user_id or username"⟩, [])
  else
    runUpstream ⟨"POST", "LRs", some (filterPayload data LR_COLUMNS), [], none⟩
      pyjwtAvailable outcome fetch

/-- `create_user` (`POST /users`). -/
def create_user (data : Dict) (pyjwtAvailable : Bool)
    (outcome fetch : UpstreamOutcome) : HandlerResult :=
  if ¬hasKey data "username" ∨ ¬hasKey data "user_id" then
    (.error ⟨400, "Missing required field: user_id or username"⟩, [])
  else
    runUpstream ⟨"POST", "users", some (filterPayload data USER_COLUMNS), [], none⟩
      pyjwtAvailable outcome fetch

/-- `update_hr` (`PATCH /hr/{user_id}`): filters by `HR_COLUMNS`,
rejects an empty filtered payload with 400 before any upstream call. -/
def update_hr (user_id : String) (data : Dict) (pyjwtAvailable : Bool)
    (outcome fetch : UpstreamOutcome) : HandlerResult :=
  let payload := filterPayload data HR_COLUMNS
  if payload.isEmpty then
    (.error ⟨400, "No valid fields to update for HR"⟩, [])
  else
    runUpstream ⟨"PATCH", "HRs", some payload, [], some user_id⟩
      pyjwtAvailable outcome fetch

/-- `update_lr` (`PATCH /lr/{user_id}`). -/
def update_lr (user_id : String) (data : Dict) (pyjwtAvailable : Bool)
    (outcome fetch : UpstreamOutcome) : HandlerResult :=
  let payload := filterPayload data LR_COLUMNS
  if payload.isEmpty then
    (.error ⟨400, "No valid fields to update for LR"⟩, [])
  else
    runUpstream ⟨"PATCH", "LRs", some payload, [], some user_id⟩
      pyjwtAvailable outcome fetch

/-- `update_user` (`PATCH /users/{user_id}`). -/
def update_user (user_id : String) (data : Dict) (pyjwtAvailable : Bool)
    (outcome fetch : UpstreamOutcome) : HandlerResult :=
  let payload := filterPayload data USER_COLUMNS
  if payload.isEmpty then
    (.error ⟨400, "No valid fields to update for user"⟩, [])
  else
    runUpstream ⟨"PATCH", "users", some payload, [], some user_id⟩
      pyjwtAvailable outcome fetch

/-- `delete_hr` (`DELETE /hr/{user_id}`). -/
def delete_hr (user_id : String) (pyjwtAvailable : Bool)
    (outcome fetch : UpstreamOutcome) : HandlerResult :=
  runUpstream ⟨"DELETE", "HRs", none, [], some user_id⟩ pyjwtAvailable outcome fetch

/-- `delete_lr` (`DELETE /lr/{user_id}`). -/
def delete_lr (user_id : String) (pyjwtAvailable : Bool)
    (outcome fetch : UpstreamOutcome) : HandlerResult :=
  runUpstream ⟨"DELETE", "LRs", none, [], some user_id⟩ pyjwtAvailable outcome fetch

/-- `delete_user` (`DELETE /users/{user_id}`). -/
def delete_user (user_id : String) (pyjwtAvailable : Bool)
    (outcome fetch : UpstreamOutcome) : HandlerResult :=
  runUpstream ⟨"DELETE", "users", none, [], some user_id⟩ pyjwtAvailable outcome fetch

/-- `create_hierarchy_section` (`POST /admin/hierarchy/sections`):
filters by `HIERARCHY_SECTION_COLUMNS`, requires truthy
`section_title` and `section_type` in the filtered payload. -/
def create_hierarchy_section (data : Dict) (pyjwtAvailable : Bool)
    (outcome fetch : UpstreamOutcome) : HandlerResult :=
  let payload := filterPayload data HIERARCHY_SECTION_COLUMNS
  if ¬pyGetTruthy payload "section_title" ∨ ¬pyGetTruthy payload "section_type" then
    (.error ⟨400, "Missing required fields"⟩, [])
  else
    runUpstream ⟨"POST", "hierarchy_sections", some payload, [], none⟩
      pyjwtAvailable outcome fetch

/-- `update_hierarchy_section` (`PATCH /admin/hierarchy/sections/{section_id}`). -/
def update_hierarchy_section (section_id : String) (data : Dict)
    (pyjwtAvailable : Bool) (outcome fetch : UpstreamOutcome) : HandlerResult :=
  let payload := filterPayload data HIERARCHY_SECTION_COLUMNS
  if payload.isEmpty then
    (.error ⟨400, "No valid fields to update"⟩, [])
  else
    runUpstream ⟨"PATCH", "hierarchy_sections", some payload, [], some section_id⟩
      pyjwtAvailable outcome fetch

/-- `create_hierarchy_entry` (`POST /admin/hierarchy/entries`):
requires truthy `section_id` and `rank` in the filtered payload. -/
def create_hierarchy_entry (data : Dict) (pyjwtAvailable : Bool)
    (outcome fetch : UpstreamOutcome) : HandlerResult :=
  let payload := filterPayload data HIERARCHY_ENTRY_COLUMNS
  if ¬pyGetTruthy payload "section_id" ∨ ¬pyGetTruthy payload "rank" then
    (.error ⟨400, "Missing required fields"⟩, [])
  else
    runUpstream ⟨"POST", "hierarchy_entries", some payload, [], none⟩
      pyjwtAvailable outcome fetch

/-- `update_hierarchy_entry` (`PATCH /admin/hierarchy/entries/{entry_id}`). -/
def update_hierarchy_entry (entry_id : String) (data : Dict)
    (pyjwtAvailable : Bool) (outcome fetch : UpstreamOutcome) : HandlerResult :=
  let payload := filterPayload data HIERARCHY_ENTRY_COLUMNS
  if payload.isEmpty then
    (.error ⟨400, "No valid fields to update"⟩, [])
  else
    runUpstream ⟨"PATCH", "hierarchy_entries", some payload, [], some entry_id⟩
      pyjwtAvailable outcome fetch

/-- `create_hierarchy_header` (`POST /admin/hierarchy/headers`):
requires truthy `section_id` and `header_text` in the filtered payload. -/
def create_hierarchy_header (data : Dict) (pyjwtAvailable : Bool)
    (outcome fetch : UpstreamOutcome) : HandlerResult :=
  let payload := filterPayload data HIERARCHY_HEADER_COLUMNS
  if ¬pyGetTruthy payload "section_id" ∨ ¬pyGetTruthy payload "header_text" then
    (.error ⟨400, "Missing required fields"⟩, [])
  else
    runUpstream ⟨"POST", "hierarchy_headers", some payload, [], none⟩
      pyjwtAvailable outcome fetch

/-- `update_hierarchy_header` (`PATCH /admin/hierarchy/headers/{header_id}`). -/
def update_hierarchy_header (header_id : String) (data : Dict)
    (pyjwtAvailable : Bool) (outcome fetch : UpstreamOutcome) : HandlerResult :=
  let payload := filterPayload data HIERARCHY_HEADER_COLUMNS
  if payload.isEmpty then
    (.error ⟨400, "No valid fields to update"⟩, [])
  else
    runUpstream ⟨"PATCH", "hierarchy_headers", some payload, [], some header_id⟩
      pyjwtAvailable outcome fetch

/-- `public_leaderboard` (`GET /public/leaderboard`): wraps the
forwarder in `try/except Exception: return []`; since FastAPI's
`HTTPException` is an `Exception` subclass, an upstream error is
swallowed and the handler responds 200 with an empty JSON list. -/
def public_leaderboard (pyjwtAvailable : Bool)
    (outcome fetch : UpstreamOutcome) : HandlerResult :=
  let c : UpstreamCall :=
    ⟨"GET", "users", none,
     [("select", "user_id,username,xp"), ("order", "xp.desc"), ("limit", "100")],
     none⟩
  match supabase_request c pyjwtAvailable outcome fetch with
  | .ok v => (.ok v, [c])
  | .error _ => (.ok (.list []), [c])

/-- `public_hr` (`GET /public/hr`): same swallowing wrapper. -/
def public_hr (pyjwtAvailable : Bool)
    (outcome fetch : UpstreamOutcome) : HandlerResult :=
  let c : UpstreamCall :=
    ⟨"GET", "HRs", none,
     [("select", "user_id,username,tryouts,events,phases,courses,inspections,joint_events,division,rank"),
      ("order", "user_id"), ("limit", "100")],
     none⟩
  match supabase_request c pyjwtAvailable outcome fetch with
  | .ok v => (.ok v, [c])
  | .error _ => (.ok (.list []), [c])

/-- `public_lr` (`GET /public/lr`): same swallowing wrapper. -/
def public_lr (pyjwtAvailable : Bool)
    (outcome fetch : UpstreamOutcome) : HandlerResult :=
  let c : UpstreamCall :=
    ⟨"GET", "LRs", none,
     [("select", "user_id,username,activity,time_guarded,events_attended,division,rank"),
      ("order", "user_id"), ("limit", "100")],
     none⟩
  match supabase_request c pyjwtAvailable outcome fetch with
  | .ok v => (.ok v, [c])
  | .error _ => (.ok (.list []), [c])

/-- `leaderboard` (`GET /leaderboard`, protected): no `try/except`;
forwarder errors propagate to the caller. -/
def leaderboard (pyjwtAvailable : Bool)
    (outcome fetch : UpstreamOutcome) : HandlerResult :=
  runUpstream
    ⟨"GET", "users", none, [("select", "user_id,username,xp"), ("order", "xp.desc")], none⟩
    pyjwtAvailable outcome fetch

/-- `get_hr` (`GET /hr`, protected): errors propagate. -/
def get_hr (pyjwtAvailable : Bool)
    (outcome fetch : UpstreamOutcome) : HandlerResult :=
  runUpstream ⟨"GET", "HRs", none, [("order", "user_id")], none⟩
    pyjwtAvailable outcome fetch

/-- `get_lr` (`GET /lr`, protected): errors propagate. -/
def get_lr (pyjwtAvailable : Bool)
    (outcome fetch : UpstreamOutcome) : HandlerResult :=
  runUpstream ⟨"GET", "LRs", none, [("order", "user_id")], none⟩
    pyjwtAvailable outcome fetch

/-- A protected route as FastAPI executes it: the dependency chain
(`HTTPBearer` → `get_current_user` → `is_admin_or_hicom`) runs first
and short-circuits with its error before the handler body — and hence
before any upstream database call — when it rejects. -/
def protectedRoute (pyjwtAvailable : Bool) (secret hicomRoleId : String)
    (now : Nat) (cred : Credential) (lookup : RoleLookup)
    (handler : HandlerResult) : HandlerResult :=
  match auth_gate pyjwtAvailable secret hicomRoleId now cred lookup with
  | (.error e, _) => (.error e, [])
  | (.ok _, _) => handler

/-- The full `DELETE /hr/{user_id}` route: authorization gate, then the
`delete_hr` handler body. -/
def delete_hr_route (pyjwtAvailable : Bool) (secret hicomRoleId : String)
    (now : Nat) (cred : Credential) (lookup : RoleLookup) (user_id : String)
    (outcome fetch : UpstreamOutcome) : HandlerResult :=
  protectedRoute pyjwtAvailable secret hicomRoleId now cred lookup
    (delete_hr user_id pyjwtAvailable outcome fetch)

-- ===== Claim theorems =====

/-- The sample payload of the end-to-end scenario:
`{"user_id": "42", "username": "alice", "xp": 10, "evil_field": "x"}`. -/
def evilUserPayload : Dict :=
  [("user_id", .str "42"), ("username", .str "alice"),
   ("xp", .int 10), ("evil_field", .str "x")]

/-- Every key of the JSON body of an upstream call lies in the given
allow-list. -/
def callRespectsAllowList (allowed : List String) (c : UpstreamCall) : Prop :=
  ∀ kv ∈ c.data.getD [], kv.1 ∈ allowed

/-- C2: for every payload map P and allow-list A, the key sequence of
`filter(P, A)` is exactly the keys of P that lie in A, each surviving
key maps to its original value unchanged, keys outside A are absent,
and the filter is idempotent. -/
theorem claim_C2 (P : Dict) (A : List String) :
    ((filterPayload P A).map Prod.fst
        = (P.map Prod.fst).filter (fun k => decide (k ∈ A)))
    ∧ (∀ k, k ∈ A → dictGet k (filterPayload P A) = dictGet k P)
    ∧ (∀ k, k ∉ A → dictGet k (filterPayload P A) = none)
    ∧ filterPayload (filterPayload P A) A = filterPayload P A :=
  ⟨filterPayload_keys P A,
   fun k hk => dictGet_filterPayload_mem P A k hk,
   fun k hk => dictGet_filterPayload_not_mem P A k hk,
   filterPayload_idem P A⟩

/-- Witness for C2 at a concrete payload and the `users` allow-list. -/
theorem claim_C2_witness :
    dictGet "xp" (filterPayload evilUserPayload USER_COLUMNS)
        = dictGet "xp" evilUserPayload
    ∧ dictGet "evil_field" (filterPayload evilUserPayload USER_COLUMNS) = none :=
  ⟨(claim_C2 evilUserPayload USER_COLUMNS).2.1 "xp" (by decide),
   (claim_C2 evilUserPayload USER_COLUMNS).2.2.1 "evil_field" (by decide)⟩

/-- C1: every write endpoint (POST/PATCH on /hr, /lr, /users and the
hierarchy admin endpoints) forwards no field outside the allow-list
fixed for its resource type; in particular `POST /users` with the
scenario payload forwards exactly
`{"user_id": "42", "username": "alice", "xp": 10}`. -/
theorem claim_C1 :
    (∀ data pa o f, ∀ c ∈ (create_hr data pa o f).2,
        callRespectsAllowList HR_COLUMNS c)
  ∧ (∀ data pa o f, ∀ c ∈ (create_lr data pa o f).2,
        callRespectsAllowList LR_COLUMNS c)
  ∧ (∀ data pa o f, ∀ c ∈ (create_user data pa o f).2,
        callRespectsAllowList USER_COLUMNS c)
  ∧ (∀ uid data pa o f, ∀ c ∈ (update_hr uid data pa o f).2,
        callRespectsAllowList HR_COLUMNS c)
  ∧ (∀ uid data pa o f, ∀ c ∈ (update_lr uid data pa o f).2,
        callRespectsAllowList LR_COLUMNS c)
  ∧ (∀ uid data pa o f, ∀ c ∈ (update_user uid data pa o f).2,
        callRespectsAllowList USER_COLUMNS c)
  ∧ (∀ data pa o f, ∀ c ∈ (create_hierarchy_section data pa o f).2,
        callRespectsAllowList HIERARCHY_SECTION_COLUMNS c)
  ∧ (∀ sid data pa o f, ∀ c ∈ (update_hierarchy_section sid data pa o f).2,
        callRespectsAllowList HIERARCHY_SECTION_COLUMNS c)
  ∧ (∀ data pa o f, ∀ c ∈ (create_hierarchy_entry data pa o f).2,
        callRespectsAllowList HIERARCHY_ENTRY_COLUMNS c)
  ∧ (∀ eid data pa o f, ∀ c ∈ (update_hierarchy_entry eid data pa o f).2,
        callRespectsAllowList HIERARCHY_ENTRY_COLUMNS c)
  ∧ (∀ data pa o f, ∀ c ∈ (create_hierarchy_header data pa o f).2,
        callRespectsAllowList HIERARCHY_HEADER_COLUMNS c)
  ∧ (∀ hid data pa o f, ∀ c ∈ (update_hierarchy_header hid data pa o f).2,
        callRespectsAllowList HIERARCHY_HEADER_COLUMNS c)
  ∧ (∀ pa o f, (create_user evilUserPayload pa o f).2
        = [⟨"POST", "users",
            some [("user_id", .str "42"), ("username", .str "alice"), ("xp", .int 10)],
            [], none⟩]) := by
  refine ⟨?_, ?_, ?_, ?_, ?_, ?_, ?_, ?_, ?_, ?_, ?_, ?_, ?_⟩
  · intro data pa o f c hc
    simp only [create_hr, runUpstream] at hc
    split at hc
    · simp at hc
    · simp at hc
      subst hc
      exact fun kv hkv => filterPayload_key_allowed data _ kv hkv
  · intro data pa o f c hc
    simp only [create_lr, runUpstream] at hc
    split at hc
    · simp at hc
    · simp at hc
      subst hc
      exact fun kv hkv => filterPayload_key_allowed data _ kv hkv
  · intro data pa o f c hc
    simp only [create_user, runUpstream] at hc
    split at hc
    · simp at hc
    · simp at hc
      subst hc
      exact fun kv hkv => filterPayload_key_allowed data _ kv hkv
  · intro uid data pa o f c hc
    simp only [update_hr, runUpstream] at hc
    split at hc
    · simp at hc
    · simp at hc
      subst hc
      exact fun kv hkv => filterPayload_key_allowed data _ kv hkv
  · intro uid data pa o f c hc
    simp only [update_lr, runUpstream] at hc
    split at hc
    · simp at hc
    · simp at hc
      subst hc
      exact fun kv hkv => filterPayload_key_allowed data _ kv hkv
  · intro uid data pa o f c hc
    simp only [update_user, runUpstream] at hc
    split at hc
    · simp at hc
    · simp at hc
      subst hc
      exact fun kv hkv => filterPayload_key_allowed data _ kv hkv
  · intro data pa o f c hc
    simp only [create_hierarchy_section, runUpstream] at hc
    split at hc
    · simp at hc
    · simp at hc
      subst hc
      exact fun kv hkv => filterPayload_key_allowed data _ kv hkv
  · intro sid data pa o f c hc
    simp only [update_hierarchy_section, runUpstream] at hc
    split at hc
    · simp at hc
    · simp at hc
      subst hc
      exact fun kv hkv => filterPayload_key_allowed data _ kv hkv
  · intro data pa o f c hc
    simp only [create_hierarchy_entry, runUpstream] at hc
    split at hc
    · simp at hc
    · simp at hc
      subst hc
      exact fun kv hkv => filterPayload_key_allowed data _ kv hkv
  · intro eid data pa o f c hc
    simp only [update_hierarchy_entry, runUpstream] at hc
    split at hc
    · simp at hc
    · simp at hc
      subst hc
      exact fun kv hkv => filterPayload_key_allowed data _ kv hkv
  · intro data pa o f c hc
    simp only [create_hierarchy_header, runUpstream] at hc
    split at hc
    · simp at hc
    · simp at hc
      subst hc
      exact fun kv hkv => filterPayload_key_allowed data _ kv hkv
  · intro hid data pa o f c hc
    simp only [update_hierarchy_header, runUpstream] at hc
    split at hc
    · simp at hc
    · simp at hc
      subst hc
      exact fun kv hkv => filterPayload_key_allowed data _ kv hkv
  · intro pa o f
    rfl

/-- Witness for C1: the call issued by `POST /users` on the scenario
payload respects the `users` allow-list. -/
theorem claim_C1_witness :
    callRespectsAllowList USER_COLUMNS
      ⟨"POST", "users",
       some [("user_id", .str "42"), ("username", .str "alice"), ("xp", .int 10)],
       [], none⟩ := by
  have h := claim_C1.2.2.1 evilUserPayload true
    (UpstreamOutcome.networkError "") (UpstreamOutcome.networkError "")
  refine h _ ?_
  rw [claim_C1.2.2.2.2.2.2.2.2.2.2.2.2 true
    (UpstreamOutcome.networkError "") (UpstreamOutcome.networkError "")]
  exact List.mem_singleton_self _

/-- C7: every PATCH endpoint whose allow-list filtering yields an empty
payload rejects with a 400 `ValidationError` and performs no upstream
call. -/
theorem claim_C7 :
    (∀ uid data pa o f, filterPayload data HR_COLUMNS = [] →
        update_hr uid data pa o f
          = (.error ⟨400, "No valid fields to update for HR"⟩, []))
  ∧ (∀ uid data pa o f, filterPayload data LR_COLUMNS = [] →
        update_lr uid data pa o f
          = (.error ⟨400, "No valid fields to update for LR"⟩, []))
  ∧ (∀ uid data pa o f, filterPayload data USER_COLUMNS = [] →
        update_user uid data pa o f
          = (.error ⟨400, "No valid fields to update for user"⟩, []))
  ∧ (∀ sid data pa o f, filterPayload data HIERARCHY_SECTION_COLUMNS = [] →
        update_hierarchy_section sid data pa o f
          = (.error ⟨400, "No valid fields to update"⟩, []))
  ∧ (∀ eid data pa o f, filterPayload data HIERARCHY_ENTRY_COLUMNS = [] →
        update_hierarchy_entry eid data pa o f
          = (.error ⟨400, "No valid fields to update"⟩, []))
  ∧ (∀ hid data pa o f, filterPayload data HIERARCHY_HEADER_COLUMNS = [] →
        update_hierarchy_header hid data pa o f
          = (.error ⟨400, "No valid fields to update"⟩, [])) := by
  refine ⟨?_, ?_, ?_, ?_, ?_, ?_⟩ <;>
    · intro _ data _ _ _ h
      simp [update_hr, update_lr, update_user, update_hierarchy_section,
        update_hierarchy_entry, update_hierarchy_header, h]

/-- Witness for C7: a payload containing only an unknown field is
rejected by `PATCH /hr/{user_id}` with no upstream call. -/
theorem claim_C7_witness :
    update_hr "7" [("evil_field", .str "x")] true
        (UpstreamOutcome.networkError "") (UpstreamOutcome.networkError "")
      = (.error ⟨400, "No valid fields to update for HR"⟩, []) :=
  claim_C7.1 "7" [("evil_field", .str "x")] true
    (UpstreamOutcome.networkError "") (UpstreamOutcome.networkError "") rfl

-- ===== Lemmas about dict update, and the token roundtrip =====

theorem dictGet_dictSet_self (d : Dict) (k : String) (v : PyVal) :
    dictGet k (dictSet d k v) = some v := by
  induction d with
  | nil => simp [dictSet, dictGet]
  | cons kv rest ih =>
    obtain ⟨k2, v2⟩ := kv
    by_cases he : k2 = k <;> simp [dictSet, dictGet, he, ih]

theorem dictGet_dictSet_ne (d : Dict) (k k2 : String) (v : PyVal) (h : k ≠ k2) :
    dictGet k (dictSet d k2 v) = dictGet k d := by
  induction d with
  | nil =>
    simp only [dictSet, dictGet]
    rw [if_neg (fun hh => h hh.symm)]
  | cons kv rest ih =>
    obtain ⟨k3, v3⟩ := kv
    by_cases he : k3 = k2
    · subst he
      have hne : ¬k3 = k := fun hh => h hh.symm
      simp [dictSet, dictGet, hne]
    · by_cases hk : k3 = k <;> simp [dictSet, dictGet, he, hk, h, ih]

theorem dictGet_exp_tokenPayload (d : Dict) (t0 : Nat) :
    dictGet "exp" (tokenPayload d t0) = some (.int ((t0 : Int) + 3600)) := by
  unfold tokenPayload
  rw [dictGet_dictSet_ne _ _ _ _ (by decide), dictGet_dictSet_self]

theorem dictGet_tokenPayload_other (d : Dict) (t0 : Nat) (k : String)
    (h1 : k ≠ "exp") (h2 : k ≠ "iat") :
    dictGet k (tokenPayload d t0) = dictGet k d := by
  unfold tokenPayload
  rw [dictGet_dictSet_ne _ _ _ _ h2, dictGet_dictSet_ne _ _ _ _ h1]

theorem verify_create_jwt (secret : String) (d : Dict) (t0 t : Nat) :
    verify_jwt_token_jwt secret t (create_jwt_token_jwt secret t0 d)
      = if ((t0 : Int) + 3600) ≤ (t : Int) then none
        else some (tokenPayload d t0) := by
  simp [verify_jwt_token_jwt, create_jwt_token_jwt, dictGet_exp_tokenPayload]

theorem verify_create_fallback (d : Dict) (t0 t : Nat) :
    verify_jwt_token_fallback t (create_jwt_token_fallback t0 d)
      = if ((t0 : Int) + 3600) > (t : Int) then some (tokenPayload d t0)
        else none := by
  simp [verify_jwt_token_fallback, create_jwt_token_fallback, dictGet_exp_tokenPayload]

/-- C3: under either token strategy, verifying a freshly issued token
returns the embedded identity (every original field unchanged, with
`exp = issued_at + 3600`) while `now < expires_at`, and returns invalid
once `now ≥ expires_at`; moreover an expired token is rejected
regardless of its signature (any signature value, in either strategy). -/
theorem claim_C3 (pa : Bool) (secret : String) (d : Dict) (t0 t : Nat) :
    (t < t0 + 3600 →
      ∃ p, verify_jwt_token pa secret t (create_jwt_token pa secret t0 d) = some p
        ∧ (∀ k, k ≠ "exp" → k ≠ "iat" → dictGet k p = dictGet k d)
        ∧ dictGet "exp" p = some (.int ((t0 : Int) + 3600)))
    ∧ (t0 + 3600 ≤ t →
      verify_jwt_token pa secret t (create_jwt_token pa secret t0 d) = none)
    ∧ (∀ payload sig e, dictGet "exp" payload = some (.int e) → e ≤ (t : Int) →
      verify_jwt_token_jwt secret t (.signed payload sig) = none)
    ∧ (∀ payload e, dictGet "exp" payload = some (.int e) → e ≤ (t : Int) →
      verify_jwt_token_fallback t (.plain payload) = none) := by
  refine ⟨?_, ?_, ?_, ?_⟩
  · intro hlt
    refine ⟨tokenPayload d t0, ?_,
      fun k h1 h2 => dictGet_tokenPayload_other d t0 k h1 h2,
      dictGet_exp_tokenPayload d t0⟩
    cases pa <;>
      simp [verify_jwt_token, create_jwt_token, verify_create_jwt,
        verify_create_fallback] <;> omega
  · intro hge
    cases pa <;>
      simp [verify_jwt_token, create_jwt_token, verify_create_jwt,
        verify_create_fallback] <;> omega
  · intro payload sig e he hle
    simp [verify_jwt_token_jwt, he]
    intro _
    omega
  · intro payload e he hle
    simp [verify_jwt_token_fallback, he]
    omega

/-- Witness for C3: a concrete identity issued at time 0 verifies at
time 10, is rejected at time 4000, and a concrete expired signed token
is rejected whatever its signature. -/
theorem claim_C3_witness :
    (verify_jwt_token false "s" 10
        (create_jwt_token false "s" 0 [("discord_id", .str "42")])).isSome = true
    ∧ verify_jwt_token false "s" 4000
        (create_jwt_token false "s" 0 [("discord_id", .str "42")]) = none
    ∧ verify_jwt_token_jwt "s" 4000 (.signed [("exp", .int 100)] 0) = none := by
  refine ⟨?_, ?_, ?_⟩
  · obtain ⟨p, hp, -⟩ :=
      (claim_C3 false "s" [("discord_id", .str "42")] 0 10).1 (by decide)
    rw [hp]
    rfl
  · exact (claim_C3 false "s" [("discord_id", .str "42")] 0 4000).2.1 (by decide)
  · exact (claim_C3 false "s" [("discord_id", .str "42")] 0 4000).2.2.1
      [("exp", .int 100)] 0 100 rfl (by decide)

/-- C4: a request with a valid token whose identity is the configured
admin id is authorized by the token-plus-role gate without the Discord
role lookup being performed, whatever that lookup would return. -/
theorem claim_C4 (pa : Bool) (secret hicom : String) (now : Nat) (t : Token)
    (u : Dict) (hv : verify_jwt_token pa secret now t = some u)
    (ha : isAdminUser u = true) :
    ∀ lookup, auth_gate pa secret hicom now (.bearer t) lookup = (.ok u, false) := by
  intro lookup
  simp [auth_gate, extractBearer, get_current_user, hv, is_admin_or_hicom, ha]

/-- Witness for C4: a concrete admin token is authorized with no role
lookup, even when the lookup would be a network error. -/
theorem claim_C4_witness :
    auth_gate false "s" "role1" 0
        (.bearer (.plain [("discord_id", .str "353167234698444802"), ("exp", .int 3600)]))
        .networkError
      = (.ok [("discord_id", .str "353167234698444802"), ("exp", .int 3600)], false) :=
  claim_C4 false "s" "role1" 0
    (.plain [("discord_id", .str "353167234698444802"), ("exp", .int 3600)])
    [("discord_id", .str "353167234698444802"), ("exp", .int 3600)]
    rfl rfl .networkError

/-- C5: for a valid non-admin identity, a network failure during the
Discord role lookup makes the gate reject with the generic 403
permission-denied error — fail closed, no server error, no grant. -/
theorem claim_C5 (hicom : String) (u : Dict) (ha : isAdminUser u = false) :
    is_admin_or_hicom hicom u .networkError = (.error accessDenied, true)
    ∧ accessDenied.status = 403 := by
  refine ⟨?_, rfl⟩
  simp [is_admin_or_hicom, ha]

/-- Witness for C5 at a concrete non-admin identity. -/
theorem claim_C5_witness :
    is_admin_or_hicom "role1" [("discord_id", .str "999")] .networkError
        = (.error accessDenied, true)
    ∧ accessDenied.status = 403 :=
  claim_C5 "role1" [("discord_id", .str "999")] rfl

/-- C6: a `DELETE /hr/{user_id}` request that supplies no credential is
rejected with 401 before the handler body runs, and no upstream call is
issued — for every strategy, clock, lookup outcome and upstream state. -/
theorem claim_C6 (pa : Bool) (secret hicom : String) (now : Nat)
    (lookup : RoleLookup) (uid : String) (o f : UpstreamOutcome) :
    delete_hr_route pa secret hicom now .noCredential lookup uid o f
      = (.error ⟨401, "Not authenticated"⟩, []) := rfl

/-- C8: an upstream success with status 204 or an empty body is
normalized to the canonical `{success: true, message}` shape, the
message depending on the HTTP method; for POST the result is never an
error whatever the best-effort fetch does, and a failing fetch yields
the generic created acknowledgment. -/
theorem claim_C8 (c : UpstreamCall) (pa : Bool) (status : Nat) (text : String)
    (parsed : Option PyVal) (fetch : UpstreamOutcome)
    (hsucc : status < 400) (hempty : status = 204 ∨ text.trim = "") :
    (c.method = "DELETE" →
        supabase_request c pa (.resp status text parsed) fetch
          = .ok (successMsg "Record deleted successfully"))
    ∧ (c.method = "PATCH" →
        supabase_request c pa (.resp status text parsed) fetch
          = .ok (successMsg "Record updated successfully"))
    ∧ (c.method = "POST" →
        supabase_request c pa (.resp status text parsed) fetch
          = .ok (emptyBodyPostResult fetch))
    ∧ (∀ msg, c.method = "POST" →
        supabase_request c pa (.resp status text parsed) (.networkError msg)
          = .ok (successMsg "Record created successfully")) := by
  refine ⟨?_, ?_, ?_, ?_⟩
  · intro h
    simp only [supabase_request]
    rw [if_neg (show ¬(status ≥ 400) from by omega), if_pos hempty, h]
    rfl
  · intro h
    simp only [supabase_request]
    rw [if_neg (show ¬(status ≥ 400) from by omega), if_pos hempty, h]
    rfl
  · intro h
    simp only [supabase_request]
    rw [if_neg (show ¬(status ≥ 400) from by omega), if_pos hempty, h]
    rfl
  · intro msg h
    simp only [supabase_request]
    rw [if_neg (show ¬(status ≥ 400) from by omega), if_pos hempty, h]
    rfl

/-- Witness for C8 at a concrete 204 delete response. -/
theorem claim_C8_witness :
    supabase_request ⟨"DELETE", "HRs", none, [], some "7"⟩ true
        (.resp 204 "" none) (.networkError "")
      = .ok (successMsg "Record deleted successfully") :=
  (claim_C8 ⟨"DELETE", "HRs", none, [], some "7"⟩ true 204 "" none
    (.networkError "") (by decide) (Or.inl rfl)).1 rfl

/-- C9 counterexample: the public leaderboard endpoint does not surface
an upstream error — on an upstream 500 it answers success with an empty
list, so the claim that every endpoint propagates upstream errors is
false as stated. -/
theorem claim_C9_counterexample :
    (public_leaderboard true (.resp 500 "boom" none) (.networkError "")).1
        = .ok (.list [])
    ∧ (public_leaderboard true (.resp 500 "boom" none) (.networkError "")).1
        ≠ .error ⟨500, "Supabase error: boom"⟩ :=
  ⟨rfl, fun h => Except.noConfusion h⟩

/-- C9 (amended): the forwarder surfaces every upstream status ≥ 400 as
an error carrying that status and the upstream message, and normalizes
a network/transport fault to a 500 with a descriptive message; the
protected read endpoints propagate these errors, but the public read
endpoints swallow them and return an empty list. -/
theorem claim_C9 :
    (∀ (c : UpstreamCall) pa fetch status text parsed, 400 ≤ status →
        supabase_request c pa (.resp status text parsed) fetch
          = .error ⟨status, "Supabase error: " ++ text⟩)
    ∧ (∀ (c : UpstreamCall) pa fetch msg,
        supabase_request c pa (.networkError msg) fetch
          = .error ⟨500, "Database request failed: " ++ msg⟩)
    ∧ (∀ pa fetch status text parsed, 400 ≤ status →
        (leaderboard pa (.resp status text parsed) fetch).1
            = .error ⟨status, "Supabase error: " ++ text⟩
        ∧ (get_hr pa (.resp status text parsed) fetch).1
            = .error ⟨status, "Supabase error: " ++ text⟩
        ∧ (get_lr pa (.resp status text parsed) fetch).1
            = .error ⟨status, "Supabase error: " ++ text⟩)
    ∧ (∀ pa fetch status text parsed, 400 ≤ status →
        (public_leaderboard pa (.resp status text parsed) fetch).1 = .ok (.list [])
        ∧ (public_hr pa (.resp status text parsed) fetch).1 = .ok (.list [])
        ∧ (public_lr pa (.resp status text parsed) fetch).1 = .ok (.list [])) := by
  have hbase : ∀ (c : UpstreamCall) pa fetch status text parsed, 400 ≤ status →
      supabase_request c pa (.resp status text parsed) fetch
        = .error ⟨status, "Supabase error: " ++ text⟩ := by
    intro c pa fetch status text parsed h
    simp only [supabase_request]
    rw [if_pos (show status ≥ 400 from h)]
  refine ⟨hbase, fun c pa fetch msg => rfl, ?_, ?_⟩
  · intro pa fetch status text parsed h
    exact ⟨by simp [leaderboard, runUpstream, hbase _ _ _ _ _ _ h],
           by simp [get_hr, runUpstream, hbase _ _ _ _ _ _ h],
           by simp [get_lr, runUpstream, hbase _ _ _ _ _ _ h]⟩
  · intro pa fetch status text parsed h
    refine ⟨?_, ?_, ?_⟩
    · simp only [public_leaderboard]
      rw [hbase _ _ _ _ _ _ h]
    · simp only [public_hr]
      rw [hbase _ _ _ _ _ _ h]
    · simp only [public_lr]
      rw [hbase _ _ _ _ _ _ h]

/-- Witness for C9 (amended) at a concrete upstream 500. -/
theorem claim_C9_witness :
    supabase_request ⟨"GET", "users", none, [], none⟩ true
        (.resp 500 "boom" none) (.networkError "")
      = .error ⟨500, "Supabase error: boom"⟩
    ∧ (public_leaderboard true (.resp 503 "down" none) (.networkError "")).1
      = .ok (.list []) :=
  ⟨claim_C9.1 ⟨"GET", "users", none, [], none⟩ true (.networkError "")
      500 "boom" none (by decide),
   (claim_C9.2.2.2 true (.networkError "") 503 "down" none (by decide)).1⟩

/-- C10: whenever a record is targeted, the forwarder appends an
equality filter on the column named `id` — `?id=eq.<selector>` — for
every method and table; in particular the `PATCH /users/{user_id}` and
`DELETE /users/{user_id}` handlers pass the route's `user_id` path
parameter as that selector. -/
theorem claim_C10 :
    (∀ base (c : UpstreamCall) rid, c.recordId = some rid →
        supabase_request_url base c
          = base ++ "/rest/v1/" ++ c.table ++ "?id=eq." ++ rid)
    ∧ (∀ uid data pa o f, filterPayload data USER_COLUMNS ≠ [] →
        (update_user uid data pa o f).2
          = [⟨"PATCH", "users", some (filterPayload data USER_COLUMNS), [], some uid⟩])
    ∧ (∀ uid pa o f, (delete_user uid pa o f).2
          = [⟨"DELETE", "users", none, [], some uid⟩])
    ∧ (∀ base uid data pa o f, ∀ c ∈ (update_user uid data pa o f).2,
        supabase_request_url base c = base ++ "/rest/v1/" ++ "users" ++ "?id=eq." ++ uid) := by
  refine ⟨?_, ?_, ?_, ?_⟩
  · intro base c rid hr
    simp only [supabase_request_url, hr]
    by_cases hm : c.method = "DELETE" <;> simp [hm]
  · intro uid data pa o f h
    rcases hfp : filterPayload data USER_COLUMNS with _ | ⟨kv, rest⟩
    · exact absurd hfp h
    · simp [update_user, runUpstream, hfp]
  · intro uid pa o f
    rfl
  · intro base uid data pa o f c hc
    simp only [update_user, runUpstream] at hc
    split at hc
    · simp at hc
    · simp at hc
      subst hc
      rfl

/-- Witness for C10 at a concrete selector and payload. -/
theorem claim_C10_witness :
    supabase_request_url "https://x.supabase.co"
        ⟨"PATCH", "users", none, [], some "7"⟩
      = "https://x.supabase.co" ++ "/rest/v1/" ++ "users" ++ "?id=eq." ++ "7"
    ∧ (update_user "7" [("xp", .int 5)] true
          (UpstreamOutcome.networkError "") (UpstreamOutcome.networkError "")).2
      = [⟨"PATCH", "users", some [("xp", .int 5)], [], some "7"⟩] := by
  constructor
  · exact claim_C10.1 "https://x.supabase.co"
      ⟨"PATCH", "users", none, [], some "7"⟩ "7" rfl
  · have h := claim_C10.2.1 "7" [("xp", .int 5)] true
      (UpstreamOutcome.networkError "") (UpstreamOutcome.networkError "")
      (by intro hh; exact List.noConfusion hh)
    simpa using h
